import Mathlib

/-!
A verification development for the Fintrust Global backend: the pipeline
orchestration and provider-fallback subsystem.  The Lean definitions below are
a shallow embedding of the Python source under `backend/`:

* `main.py` — the session store, the API entry points (`start_research`,
  `confirm_model`, `get_status`, `download_model`, `provide_missing_data`)
  and the scheduled background tasks (`run_pipeline`, `build_model`),
  modelled as a transition system over `SessionState`;
* `agents/analyst_agent.py` — `AnalystAgent.recommend` (the provider cascade)
  and `_rule_based_recommendation` (the deterministic fallback);
* `agents/planning_agent.py` — `_calculate_metrics` and `_generate_scenarios`;
* `agents/build_agent.py` — the `QAAgent` checkers.

Python floats are modelled as exact rationals; the float power used by the
CAGR formula is modelled as the real power `Real.rpow`, so those definitions
live over `ℝ`.  Free-text prose fields (reasoning strings, log messages,
timestamps) and the spreadsheet-rendering collaborator are outside the model;
a comment at each definition records any such elision.
-/

/-! ## Session phase values (`main.py`, string field `session["phase"]`)

The source stores the phase as a string.  The values ever assigned are
"idle", "researching", "awaiting_confirmation", "building" and "error";
"delivered" is the further terminal state named by the state machine of the
specification, included here so that theorems can speak about it. -/

inductive Phase where
  | idle
  | researching
  | awaitingConfirmation
  | building
  | delivered
  | error
deriving DecidableEq, Repr

/-- One session record, the fields of `get_session`'s initialiser in
`main.py` that the verified claims touch.  `company_data` is modelled by
`dataFound` (the truthiness of `data.get("found")`; the initial `{}` gives
`false`) together with `provided`, the key/value pairs written by
`provide_missing_data`.  The log list, timestamps, `assumptions`,
`qa_report`, `analyst_reasoning`, `key_metrics` and `deep_analysis` are not
modelled: no claim reads them. -/
structure SessionState where
  phase : Phase
  companyName : Option String
  dataFound : Bool
  modelRecommendation : Option String
  excelPath : Option String
  errorMsg : Option String
  provided : List (String × String)
deriving DecidableEq, Repr

/-- The fresh session `get_session` creates on first reference. -/
def initSession : SessionState :=
  { phase := .idle
    companyName := none
    dataFound := false
    modelRecommendation := none
    excelPath := none
    errorMsg := none
    provided := [] }

/-- The user-facing message `ResearchAgent.fetch` stores when the data
acquisition reports the company as not found (`research_agent.py`,
`fetch`); the quote characters around the company name are elided. -/
def notFoundMessage (companyName : String) : String :=
  "Could not find financial data for " ++ companyName ++
    ". Please try the stock ticker directly (e.g. INFY, TCS, RELIANCE)."

/-- How one execution of the scheduled `run_pipeline` task turns out.  The
environment decides the outcome: the data acquisition finds the company or
not (`fetch_company_data`), and any exception escaping the analysis stage is
caught by the task's `try/except`.  The research stage absorbs its own
acquisition failures, so `exc` stands for an exception from the later part
of the task body. -/
inductive PipelineOutcome where
  | notFound (resolvedName : String)
  | ok (resolvedName : String) (modelType : String)
  | exc (msg : String)
deriving DecidableEq, Repr

/-- How one execution of the scheduled `build_model` task turns out:
`BuildAgent.build` returns a path (which `build_model` discards), or raises
and the task's `except` runs. -/
inductive BuildOutcome where
  | ok
  | exc (msg : String)
deriving DecidableEq, Repr

/-- The operations that mutate a session: the API entry points of `main.py`
and the background tasks they schedule.  `get_status` and `download_model`
are read-only and modelled as functions below. -/
inductive Op where
  | startResearch (query : String)
  | runPipeline (outcome : PipelineOutcome)
  | confirmModel (confirmed : Bool) (modelType : Option String)
  | buildModel (outcome : BuildOutcome)
  | provideData (field value : String)
deriving DecidableEq, Repr

/-- The pipeline stages (the agents of `agents/`). -/
inductive AgentName where
  | research
  | analyst
  | planning
  | build
  | qa
  | delivery
deriving DecidableEq, Repr

/-- One operation applied to a session, translated statement by statement
from `main.py` (with `ResearchAgent.fetch` inlined into the pipeline task):

* `start_research` sets `phase = "researching"`, stores the query as the
  company name and resets the log list, then schedules `run_pipeline`;
* `run_pipeline` runs `fetch` (which stores the resolved name and the
  fetched data, and on `found=False` sets `phase = "error"` and the error
  message), then returns if `phase == "error"`, else runs the analyst and
  sets `phase = "awaiting_confirmation"` and the recommendation;
  an escaped exception sets `phase = "error"` and the message;
* `confirm_model` stores `req.model_type` when given and, when
  `req.confirmed`, sets `phase = "building"` and schedules `build_model`;
* `build_model` runs `BuildAgent.build`, which only appends logs and writes
  the artifact file — the returned path is discarded and no session field
  changes; on an exception it sets `phase = "error"` and the message;
* `provide_missing_data` writes one key of `session["company_data"]`. -/
def applyOp (op : Op) (s : SessionState) : SessionState :=
  match op with
  | .startResearch query =>
      { s with phase := .researching, companyName := some query }
  | .runPipeline (.notFound name) =>
      { s with companyName := some name, dataFound := false,
               phase := .error, errorMsg := some (notFoundMessage name) }
  | .runPipeline (.ok name modelType) =>
      let s1 := { s with companyName := some name, dataFound := true }
      if s1.phase = .error then s1
      else { s1 with phase := .awaitingConfirmation,
                     modelRecommendation := some modelType }
  | .runPipeline (.exc msg) =>
      { s with phase := .error, errorMsg := some msg }
  | .confirmModel confirmed modelType =>
      let s1 := match modelType with
        | some mt => { s with modelRecommendation := some mt }
        | none => s
      if confirmed then { s1 with phase := .building } else s1
  | .buildModel .ok => s
  | .buildModel (.exc msg) =>
      { s with phase := .error, errorMsg := some msg }
  | .provideData field value =>
      { s with provided := (field, value) :: s.provided }

/-- A session after a sequence of operations, starting from the fresh
session of the store. -/
def runOps (ops : List Op) : SessionState :=
  ops.foldl (fun s op => applyOp op s) initSession

/-- The agents an operation invokes, read off the call sites: the pipeline
task runs the research agent and, unless research errored the session, the
analyst; the build task constructs only `BuildAgent` — `PlanningAgent`,
`QAAgent` and `DeliveryAgent` have no call site in `main.py`. -/
def agentsRun : Op → List AgentName
  | .startResearch _ => []
  | .runPipeline (.notFound _) => [.research]
  | .runPipeline (.ok _ _) => [.research, .analyst]
  | .runPipeline (.exc _) => [.research, .analyst]
  | .confirmModel _ _ => []
  | .buildModel _ => [.build]
  | .provideData _ _ => []

/-- Whether an operation is one of the scheduled background stage tasks
(`run_pipeline` or `build_model`) rather than a direct API entry point. -/
def Op.isStageTask : Op → Bool
  | .runPipeline _ => true
  | .buildModel _ => true
  | _ => false

/-- The status view `get_status` builds (`main.py`); only the fields that
are modelled are kept.  `excel_ready` is `session.get("excel_path") is not
None`. -/
structure StatusResponse where
  phase : Phase
  excelReady : Bool
  errorMsg : Option String
deriving DecidableEq, Repr

/-- The read-only `get_status` endpoint. -/
def getStatus (s : SessionState) : StatusResponse :=
  { phase := s.phase
    excelReady := s.excelPath.isSome
    errorMsg := s.errorMsg }

/-- What `download_model` returns: the "Model not ready yet" error object or
a file response. -/
inductive DownloadResult where
  | notReady
  | file (path filename : String)
deriving DecidableEq, Repr

/-- The read-only `download_model` endpoint; `fsExists` stands for
`os.path.exists`. -/
def downloadModel (fsExists : String → Bool) (s : SessionState) : DownloadResult :=
  match s.excelPath with
  | none => .notReady
  | some p =>
      if fsExists p then
        .file p ((s.companyName.getD "Company").replace " " "_" ++ "_" ++
          s.modelRecommendation.getD "Model" ++ "_Fintrust.xlsx")
      else .notReady

/-- No operation writes `session["excel_path"]`: `build_model` discards the
path `BuildAgent.build` returns, and no other code assigns the field. -/
lemma applyOp_excelPath (op : Op) (s : SessionState) :
    (applyOp op s).excelPath = s.excelPath := by
  cases op with
  | startResearch q => rfl
  | runPipeline o =>
      cases o with
      | notFound n => rfl
      | ok n m => simp only [applyOp]; split <;> rfl
      | exc m => rfl
  | confirmModel c m =>
      cases m <;> simp only [applyOp] <;> split <;> rfl
  | buildModel o => cases o <;> rfl
  | provideData f v => rfl

lemma foldl_applyOp_excelPath (ops : List Op) (s : SessionState) :
    (ops.foldl (fun s op => applyOp op s) s).excelPath = s.excelPath := by
  induction ops generalizing s with
  | nil => rfl
  | cons op rest ih => rw [List.foldl_cons, ih, applyOp_excelPath]

/-- No operation produces the phase `delivered`: the only phases the source
assigns are `researching`, `awaiting_confirmation`, `building` and
`error`. -/
lemma applyOp_phase_ne_delivered (op : Op) (s : SessionState)
    (h : s.phase ≠ .delivered) : (applyOp op s).phase ≠ .delivered := by
  cases op with
  | startResearch q => simp [applyOp]
  | runPipeline o =>
      cases o with
      | notFound n => simp [applyOp]
      | ok n m =>
          simp only [applyOp]
          split
          · simpa using h
          · simp
      | exc m => simp [applyOp]
  | confirmModel c m =>
      cases m <;> simp only [applyOp] <;> split
      · simp
      · exact h
      · simp
      · exact h
  | buildModel o =>
      cases o with
      | ok => exact h
      | exc m => simp [applyOp]
  | provideData f v => exact h

lemma foldl_applyOp_phase_ne_delivered (ops : List Op) (s : SessionState)
    (h : s.phase ≠ .delivered) :
    (ops.foldl (fun s op => applyOp op s) s).phase ≠ .delivered := by
  induction ops generalizing s with
  | nil => exact h
  | cons op rest ih =>
      rw [List.foldl_cons]
      exact ih _ (applyOp_phase_ne_delivered op s h)

/-- C8.  Under every sequence of API operations, `session["excel_path"]`
stays `None` in every reachable session state — no code path assigns it — so
`get_status` always reports `excel_ready = false` and `download_model`
always answers with the "Model not ready yet" error, whatever the
filesystem holds. -/
theorem excel_path_never_set (ops : List Op) :
    (runOps ops).excelPath = none ∧
      (getStatus (runOps ops)).excelReady = false ∧
      ∀ fsExists : String → Bool,
        downloadModel fsExists (runOps ops) = .notReady := by
  have hpath : (runOps ops).excelPath = none := by
    rw [runOps, foldl_applyOp_excelPath]; rfl
  refine ⟨hpath, ?_, ?_⟩
  · simp [getStatus, hpath]
  · intro fsExists
    simp [downloadModel, hpath]

/-- C6 (amended).  Once `phase = "error"`, the scheduled stage tasks
(`run_pipeline`, `build_model`) leave it there — `run_pipeline` returns as
soon as it sees the errored phase and `build_model` writes nothing but
`error` — and no operation ever produces `delivered`; the API entry points
`start_research` and `confirm_model`, however, overwrite the phase
unconditionally (see the counterexample `phase_regression_cex`). -/
theorem phase_terminal_amended :
    (∀ (op : Op) (s : SessionState), op.isStageTask = true →
        s.phase = .error → (applyOp op s).phase = .error) ∧
      (∀ ops : List Op, (runOps ops).phase ≠ .delivered) := by
  constructor
  · intro op s htask herr
    cases op with
    | startResearch q => simp [Op.isStageTask] at htask
    | runPipeline o =>
        cases o with
        | notFound n => rfl
        | ok n m => simp [applyOp, herr]
        | exc m => rfl
    | confirmModel c m => simp [Op.isStageTask] at htask
    | buildModel o => cases o <;> simp [applyOp, herr]
    | provideData f v => simp [Op.isStageTask] at htask
  · intro ops
    exact foldl_applyOp_phase_ne_delivered ops initSession (by decide)

/-- C6, counterexample to the claim as stated: a session whose research run
ends in the terminal phase `error` is moved back to the non-terminal phase
`building` by a subsequent `confirm-model` operation with
`confirmed = true` (`confirm_model` assigns the phase unconditionally). -/
theorem phase_regression_cex :
    (runOps [.startResearch "zzz unknown corp",
             .runPipeline (.notFound "zzz unknown corp")]).phase = .error ∧
      (runOps [.startResearch "zzz unknown corp",
               .runPipeline (.notFound "zzz unknown corp"),
               .confirmModel true none]).phase = .building := by
  constructor <;> rfl

/-- C7.  A confirmed build run executes only the Build agent and ends with
`phase = "building"`: `build_model` never invokes `PlanningAgent`, `QAAgent`
or `DeliveryAgent`, and no operation sets `phase = "delivered"`, so a
session that researched successfully, was confirmed, and built without an
exception is left at `building`, not at the terminal `delivered` state. -/
theorem build_run_stops_at_building :
    (runOps [.startResearch "infosys",
             .runPipeline (.ok "infosys" "DCF"),
             .confirmModel true none,
             .buildModel .ok]).phase = .building ∧
      (runOps [.startResearch "infosys",
               .runPipeline (.ok "infosys" "DCF"),
               .confirmModel true none,
               .buildModel .ok]).phase ≠ .delivered ∧
      agentsRun (.buildModel .ok) = [.build] ∧
      (AgentName.planning ∉ agentsRun (.buildModel .ok) ∧
        AgentName.qa ∉ agentsRun (.buildModel .ok) ∧
        AgentName.delivery ∉ agentsRun (.buildModel .ok)) := by
  refine ⟨by decide, by decide, rfl, by decide, by decide, by decide⟩

/-- C10.  When the data acquisition reports `found = false`, the research
stage sets `phase = "error"` and stores the non-empty user-facing message,
and the pipeline task runs no further stage executor: the agents invoked by
that pipeline execution are exactly `[research]` — the analyst is not
among them. -/
theorem research_not_found_halts (s : SessionState) (name : String) :
    (applyOp (.runPipeline (.notFound name)) s).phase = .error ∧
      (applyOp (.runPipeline (.notFound name)) s).errorMsg =
        some (notFoundMessage name) ∧
      0 < (notFoundMessage name).length ∧
      agentsRun (.runPipeline (.notFound name)) = [.research] ∧
      AgentName.analyst ∉ agentsRun (.runPipeline (.notFound name)) := by
  refine ⟨rfl, rfl, ?_, rfl, by simp [agentsRun]⟩
  have hlit :
      0 < ". Please try the stock ticker directly (e.g. INFY, TCS, RELIANCE).".length := by
    decide
  simp only [notFoundMessage, String.length_append]
  omega

/-! ## Python `round`

The agents call Python's built-in `round(x, n)`, which rounds half to even.
The embedding works with exact rationals (and, for the CAGR, reals), so the
function is defined once over any linear ordered field with a floor. -/

/-- Round to the nearest integer, half to even, as Python's `round` does on
an exact value. -/
def rndHalfEven {α : Type*} [LinearOrderedField α] [FloorRing α] (x : α) : ℤ :=
  if x - ⌊x⌋ < 1/2 then ⌊x⌋
  else if 1/2 < x - ⌊x⌋ then ⌊x⌋ + 1
  else if ⌊x⌋ % 2 = 0 then ⌊x⌋ else ⌊x⌋ + 1

/-- Python's `round(x, n)` on an exact value. -/
def pyRound {α : Type*} [LinearOrderedField α] [FloorRing α] (x : α) (n : ℕ) : α :=
  (rndHalfEven (x * 10 ^ n) : α) / 10 ^ n

section RoundLemmas

variable {α : Type*} [LinearOrderedField α] [FloorRing α] {x y : α}

lemma floor_le_rndHalfEven (x : α) : ⌊x⌋ ≤ rndHalfEven x := by
  unfold rndHalfEven; split_ifs <;> omega

lemma rndHalfEven_le_floor_add_one (x : α) : rndHalfEven x ≤ ⌊x⌋ + 1 := by
  unfold rndHalfEven; split_ifs <;> omega

lemma rndHalfEven_le_of_le {m : ℤ} (h : x ≤ (m : α)) : rndHalfEven x ≤ m := by
  by_cases he : ⌊x⌋ = m
  · have h1 : (m : α) ≤ x := he ▸ Int.floor_le x
    have h2 : x = (m : α) := le_antisymm h h1
    unfold rndHalfEven
    have h3 : x - ⌊x⌋ < 1/2 := by rw [he, h2]; norm_num
    rw [if_pos h3, he]
  · have h1 : ⌊x⌋ < m := lt_of_le_of_ne (by simpa using Int.floor_le_floor h) he
    exact le_trans (rndHalfEven_le_floor_add_one x) (by omega)

lemma le_rndHalfEven_of_le {m : ℤ} (h : (m : α) ≤ x) : m ≤ rndHalfEven x :=
  le_trans (Int.le_floor.mpr h) (floor_le_rndHalfEven x)

lemma rndHalfEven_cast_le (x : α) : (rndHalfEven x : α) ≤ x + 1/2 := by
  have hfl := Int.floor_le x
  unfold rndHalfEven
  split_ifs with h1 h2 h3 <;> push_cast <;> linarith

lemma le_rndHalfEven_cast (x : α) : x - 1/2 ≤ (rndHalfEven x : α) := by
  have hfl := Int.lt_floor_add_one x
  unfold rndHalfEven
  split_ifs with h1 h2 h3 <;> push_cast <;> linarith

lemma rndHalfEven_mono (h : x ≤ y) : rndHalfEven x ≤ rndHalfEven y := by
  by_cases hf : ⌊x⌋ = ⌊y⌋
  · have hfc : ((⌊x⌋ : ℤ) : α) = ((⌊y⌋ : ℤ) : α) := by rw [hf]
    unfold rndHalfEven
    split_ifs <;> first | omega | (exfalso; linarith)
  · have hlt : ⌊x⌋ < ⌊y⌋ := lt_of_le_of_ne (Int.floor_le_floor h) hf
    calc rndHalfEven x ≤ ⌊x⌋ + 1 := rndHalfEven_le_floor_add_one x
    _ ≤ ⌊y⌋ := by omega
    _ ≤ rndHalfEven y := floor_le_rndHalfEven y

lemma pyRound_le_of_le {n : ℕ} {m : ℤ} (h : x * 10 ^ n ≤ (m : α)) :
    pyRound x n ≤ (m : α) / 10 ^ n := by
  have h10 : (0:α) < 10 ^ n := by positivity
  exact (div_le_div_iff_of_pos_right h10).mpr (by exact_mod_cast rndHalfEven_le_of_le h)

lemma le_pyRound_of_le {n : ℕ} {m : ℤ} (h : (m : α) ≤ x * 10 ^ n) :
    (m : α) / 10 ^ n ≤ pyRound x n := by
  have h10 : (0:α) < 10 ^ n := by positivity
  exact (div_le_div_iff_of_pos_right h10).mpr (by exact_mod_cast le_rndHalfEven_of_le h)

lemma pyRound_mono {n : ℕ} (h : x ≤ y) : pyRound x n ≤ pyRound y n := by
  have h10 : (0:α) < 10 ^ n := by positivity
  have hm : x * 10 ^ n ≤ y * 10 ^ n :=
    mul_le_mul_of_nonneg_right h (le_of_lt h10)
  exact (div_le_div_iff_of_pos_right h10).mpr (by exact_mod_cast rndHalfEven_mono hm)

lemma pyRound_le_add (x : α) (n : ℕ) : pyRound x n ≤ x + 1 / (2 * 10 ^ n) := by
  have h10 : (0:α) < 10 ^ n := by positivity
  have h1 : (rndHalfEven (x * 10 ^ n) : α) ≤ x * 10 ^ n + 1/2 :=
    rndHalfEven_cast_le _
  have h2 : pyRound x n ≤ (x * 10 ^ n + 1/2) / 10 ^ n :=
    (div_le_div_iff_of_pos_right h10).mpr h1
  calc pyRound x n ≤ (x * 10 ^ n + 1/2) / 10 ^ n := h2
  _ = x + 1 / (2 * 10 ^ n) := by field_simp; ring

lemma sub_le_pyRound (x : α) (n : ℕ) : x - 1 / (2 * 10 ^ n) ≤ pyRound x n := by
  have h10 : (0:α) < 10 ^ n := by positivity
  have h1 : x * 10 ^ n - 1/2 ≤ (rndHalfEven (x * 10 ^ n) : α) :=
    le_rndHalfEven_cast _
  have h2 : (x * 10 ^ n - 1/2) / 10 ^ n ≤ pyRound x n :=
    (div_le_div_iff_of_pos_right h10).mpr h1
  calc x - 1 / (2 * 10 ^ n) = (x * 10 ^ n - 1/2) / 10 ^ n := by field_simp; ring
  _ ≤ pyRound x n := h2

end RoundLemmas

/-! ## Scenario generation (`planning_agent.py`, `_generate_scenarios`)

`_generate_scenarios(base_assumptions, metrics, model_type)` perturbs the
base assumption mapping into bull and bear variants.  The fields it touches
are `rev_growth_y1` … `rev_growth_y5`, `ebitda_margin` and
`terminal_growth`; the structure below carries exactly those (the many
untouched fields of the assumption mapping are copied verbatim by
`dict(base_assumptions)` and play no role).  The margin perturbations start
from `metrics["avg_ebitda_margin"]` — not from the base mapping's own
`ebitda_margin` entry — so the metric value is a separate argument, as is
`metrics["rev_cagr"]` (read into the unused `bull_growth`). -/

structure ScenAssumptions where
  revGrowthY1 : ℚ
  revGrowthY2 : ℚ
  revGrowthY3 : ℚ
  revGrowthY4 : ℚ
  revGrowthY5 : ℚ
  ebitdaMargin : ℚ
  terminalGrowth : ℚ
deriving DecidableEq, Repr

/-- The three scenario variants (the `descriptions` sub-mapping is fixed
prose and is not modelled). -/
structure Scenarios where
  bull : ScenAssumptions
  base : ScenAssumptions
  bear : ScenAssumptions
deriving DecidableEq, Repr

/-- `PlanningAgent._generate_scenarios`, field by field.  `baseGrowth` is
`metrics["rev_cagr"]` and `baseMargin` is `metrics["avg_ebitda_margin"]`.
The source computes `bull_growth = min(base_growth * 1.30, 0.40)` but never
uses it — the per-year bull growth fields are `round(base * 1.30, 3)`
without any cap. -/
def generateScenarios (base : ScenAssumptions) (baseGrowth baseMargin : ℚ) :
    Scenarios :=
  let _bullGrowthUnused := min (baseGrowth * (13/10)) (2/5)
  let bull : ScenAssumptions :=
    { revGrowthY1 := pyRound (base.revGrowthY1 * (13/10)) 3
      revGrowthY2 := pyRound (base.revGrowthY2 * (13/10)) 3
      revGrowthY3 := pyRound (base.revGrowthY3 * (13/10)) 3
      revGrowthY4 := pyRound (base.revGrowthY4 * (13/10)) 3
      revGrowthY5 := pyRound (base.revGrowthY5 * (13/10)) 3
      ebitdaMargin := pyRound (min (baseMargin + 2/100) (60/100)) 2
      terminalGrowth := pyRound (base.terminalGrowth + 5/1000) 3 }
  let bear : ScenAssumptions :=
    { revGrowthY1 := pyRound (max (base.revGrowthY1 * (3/4)) (1/100)) 3
      revGrowthY2 := pyRound (max (base.revGrowthY2 * (3/4)) (1/100)) 3
      revGrowthY3 := pyRound (max (base.revGrowthY3 * (3/4)) (1/100)) 3
      revGrowthY4 := pyRound (max (base.revGrowthY4 * (3/4)) (1/100)) 3
      revGrowthY5 := pyRound (max (base.revGrowthY5 * (3/4)) (1/100)) 3
      ebitdaMargin := pyRound (max (baseMargin - 2/100) (5/100)) 2
      terminalGrowth := pyRound (max (base.terminalGrowth - 5/1000) (1/100)) 3 }
  { bull := bull, base := base, bear := bear }

/-- A base growth rate of at least 1% is not decreased by the bull
perturbation `round(g * 1.30, 3)`. -/
lemma bull_growth_ge {g : ℚ} (h : 1/100 ≤ g) :
    g ≤ pyRound (g * (13/10)) 3 := by
  have hb := sub_le_pyRound (g * (13/10)) 3
  have : (1 : ℚ) / (2 * 10 ^ 3) = 1/2000 := by norm_num
  nlinarith [hb]

/-- A base growth rate of at least 1% is not increased by the bear
perturbation `round(max(g * 0.75, 0.01), 3)`. -/
lemma bear_growth_le {g : ℚ} (h : 1/100 ≤ g) :
    pyRound (max (g * (3/4)) (1/100)) 3 ≤ g := by
  rcases le_total (1/100 : ℚ) (g * (3/4)) with hc | hc
  · rw [max_eq_left hc]
    have hb := pyRound_le_add (g * (3/4)) 3
    nlinarith [hb]
  · rw [max_eq_right hc]
    have hval : pyRound ((1:ℚ)/100) 3 = 1/100 := by
      norm_num [pyRound, rndHalfEven]
    rw [hval]; exact h

/-- The bull/base/bear ordering the specification asserts for the
perturbed fields. -/
def scenarioOrdered (sc : Scenarios) : Prop :=
  (sc.bear.revGrowthY1 ≤ sc.base.revGrowthY1 ∧
      sc.base.revGrowthY1 ≤ sc.bull.revGrowthY1) ∧
    (sc.bear.revGrowthY2 ≤ sc.base.revGrowthY2 ∧
      sc.base.revGrowthY2 ≤ sc.bull.revGrowthY2) ∧
    (sc.bear.revGrowthY3 ≤ sc.base.revGrowthY3 ∧
      sc.base.revGrowthY3 ≤ sc.bull.revGrowthY3) ∧
    (sc.bear.revGrowthY4 ≤ sc.base.revGrowthY4 ∧
      sc.base.revGrowthY4 ≤ sc.bull.revGrowthY4) ∧
    (sc.bear.revGrowthY5 ≤ sc.base.revGrowthY5 ∧
      sc.base.revGrowthY5 ≤ sc.bull.revGrowthY5) ∧
    (sc.bear.ebitdaMargin ≤ sc.base.ebitdaMargin ∧
      sc.base.ebitdaMargin ≤ sc.bull.ebitdaMargin)

/-- C5 (amended).  For scenario input as the Planning stage produces it —
every base growth field at least 1%, the metric margin inside its clamp
range `[0.05, 0.60]` and the base mapping's `ebitda_margin` its 2-decimal
rounding — the generated scenarios satisfy `bear ≤ base ≤ bull` on every
growth field and on the margin, with the bull margin capped at 0.60 and the
bear margin floored at 0.05.  The bull growth fields are NOT capped at 0.40
(see `scenario_bull_cap_cex`), and for a negative base growth field the
ordering itself reverses. -/
theorem scenario_ordering_amended (base : ScenAssumptions)
    (baseGrowth baseMargin : ℚ)
    (hg : 1/100 ≤ base.revGrowthY1 ∧ 1/100 ≤ base.revGrowthY2 ∧
      1/100 ≤ base.revGrowthY3 ∧ 1/100 ≤ base.revGrowthY4 ∧
      1/100 ≤ base.revGrowthY5)
    (hmLo : 1/20 ≤ baseMargin) (hmHi : baseMargin ≤ 3/5)
    (hbm : base.ebitdaMargin = pyRound baseMargin 2) :
    scenarioOrdered (generateScenarios base baseGrowth baseMargin) ∧
      (generateScenarios base baseGrowth baseMargin).bull.ebitdaMargin ≤ 3/5 ∧
      1/20 ≤ (generateScenarios base baseGrowth baseMargin).bear.ebitdaMargin := by
  obtain ⟨hg1, hg2, hg3, hg4, hg5⟩ := hg
  refine ⟨⟨⟨bear_growth_le hg1, bull_growth_ge hg1⟩,
    ⟨bear_growth_le hg2, bull_growth_ge hg2⟩,
    ⟨bear_growth_le hg3, bull_growth_ge hg3⟩,
    ⟨bear_growth_le hg4, bull_growth_ge hg4⟩,
    ⟨bear_growth_le hg5, bull_growth_ge hg5⟩, ?_, ?_⟩, ?_, ?_⟩
  · show pyRound (max (baseMargin - 2/100) (5/100)) 2 ≤ base.ebitdaMargin
    rw [hbm]
    exact pyRound_mono (max_le (by linarith) (by linarith))
  · show base.ebitdaMargin ≤ pyRound (min (baseMargin + 2/100) (60/100)) 2
    rw [hbm]
    exact pyRound_mono (le_min (by linarith) (by linarith))
  · show pyRound (min (baseMargin + 2/100) (60/100)) 2 ≤ 3/5
    have h1 : min (baseMargin + 2/100) (60/100) * 10 ^ 2 ≤ ((60 : ℤ) : ℚ) := by
      have := min_le_right (baseMargin + 2/100) (60/100 : ℚ)
      push_cast
      nlinarith [this]
    have h2 := pyRound_le_of_le h1
    calc pyRound (min (baseMargin + 2/100) (60/100)) 2 ≤ ((60 : ℤ) : ℚ) / 10 ^ 2 := h2
    _ = 3/5 := by norm_num
  · show (1:ℚ)/20 ≤ pyRound (max (baseMargin - 2/100) (5/100)) 2
    have h1 : ((5 : ℤ) : ℚ) ≤ max (baseMargin - 2/100) (5/100) * 10 ^ 2 := by
      have := le_max_right (baseMargin - 2/100) (5/100 : ℚ)
      push_cast
      nlinarith [this]
    have h2 := le_pyRound_of_le h1
    calc (1:ℚ)/20 = ((5 : ℤ) : ℚ) / 10 ^ 2 := by norm_num
    _ ≤ pyRound (max (baseMargin - 2/100) (5/100)) 2 := h2

/-- A base assumption set the Planning stage produces for a company at the
upper growth clamp (`rev_cagr = 0.40`, margin `0.22`, Indian terminal
growth): `rev_growth_yi = round(0.40 * {1, 0.95, 0.90, 0.85, 0.80}, 3)`. -/
def capBase : ScenAssumptions :=
  { revGrowthY1 := 2/5, revGrowthY2 := 19/50, revGrowthY3 := 9/25
    revGrowthY4 := 17/50, revGrowthY5 := 8/25
    ebitdaMargin := 11/50, terminalGrowth := 11/200 }

/-- A base assumption set the Planning stage produces at the lower growth
clamp (`rev_cagr = -0.10`). -/
def declineBase : ScenAssumptions :=
  { revGrowthY1 := -(1/10), revGrowthY2 := -(19/200), revGrowthY3 := -(9/100)
    revGrowthY4 := -(17/200), revGrowthY5 := -(2/25)
    ebitdaMargin := 11/50, terminalGrowth := 11/200 }

/-- C5, counterexample to the claim as stated: at the producible base set
`capBase` (growth fields at the 0.40 clamp) the bull `rev_growth_y1` is
`round(0.40 * 1.30, 3) = 0.52`, above the claimed 0.40 cap — the computed
`bull_growth = min(base_growth * 1.30, 0.40)` is never used; and at the
producible base set `declineBase` (growth clamped at -0.10) the ordering
reverses: bull growth `-0.13` falls below base `-0.10`, and bear growth
`max(-0.075, 0.01) = 0.01` rises above it. -/
theorem scenario_bull_cap_cex :
    (generateScenarios capBase (2/5) (11/50)).bull.revGrowthY1 = 13/25 ∧
      ¬ (generateScenarios capBase (2/5) (11/50)).bull.revGrowthY1 ≤ 2/5 ∧
      (generateScenarios declineBase (-(1/10)) (11/50)).bull.revGrowthY1 <
        (generateScenarios declineBase (-(1/10)) (11/50)).base.revGrowthY1 ∧
      (generateScenarios declineBase (-(1/10)) (11/50)).base.revGrowthY1 <
        (generateScenarios declineBase (-(1/10)) (11/50)).bear.revGrowthY1 := by
  have hmax : max ((-(1:ℚ)/10) * (3/4)) (1/100) = 1/100 := by
    rw [max_eq_right]; norm_num
  refine ⟨?_, ?_, ?_, ?_⟩ <;>
    norm_num [generateScenarios, capBase, declineBase, pyRound, rndHalfEven]

/-- A base assumption set as Planning produces it for `rev_cagr = 0.08`,
margin metric `0.22`. -/
def typicalBase : ScenAssumptions :=
  { revGrowthY1 := 2/25, revGrowthY2 := 19/250, revGrowthY3 := 9/125
    revGrowthY4 := 17/250, revGrowthY5 := 8/125
    ebitdaMargin := pyRound (11/50) 2, terminalGrowth := 11/200 }

/-- C5, witness: the amended ordering theorem applied at the typical
producible base set. -/
theorem scenario_ordering_witness :
    scenarioOrdered (generateScenarios typicalBase (2/25) (11/50)) ∧
      (generateScenarios typicalBase (2/25) (11/50)).bull.ebitdaMargin ≤ 3/5 ∧
      1/20 ≤ (generateScenarios typicalBase (2/25) (11/50)).bear.ebitdaMargin :=
  scenario_ordering_amended typicalBase (2/25) (11/50)
    (by norm_num [typicalBase]) (by norm_num) (by norm_num) rfl

/-! ## QA audit (`build_agent.py`, `QAAgent`)

The workbook the auditor inspects is modelled by the attributes the four
checkers read: per worksheet its title, its string-valued cell contents
(numeric and empty cells never pass the `isinstance(cell.value, str)` and
truthiness test of the formula check), its chart objects, the gridline flag
and the freeze-panes anchor.  Issue dictionaries are modelled field by
field; the `auto_fixable` key is absent from formula/chart/sheet issues, so
`issue.get("auto_fixable")` is falsy there (`autoFixable := false`). -/

structure Chart where
  series : List String
  title : Option String
deriving DecidableEq, Repr

structure Worksheet where
  title : String
  cells : List String
  charts : List Chart
  showGridLines : Bool
  freezePanes : Option String
deriving DecidableEq, Repr

structure Workbook where
  worksheets : List Worksheet
deriving DecidableEq, Repr

structure Issue where
  itype : String
  sheet : String
  cell : String
  descr : String
  severity : String
  autoFixable : Bool
deriving DecidableEq, Repr

/-- The auditor's mutable counters (`self.checks_run`, `self.checks_passed`,
`self.issues`). -/
structure QAState where
  checksRun : ℕ
  checksPassed : ℕ
  issues : List Issue
deriving DecidableEq, Repr

/-- Python's substring test `pat in s`. -/
def strContains (s pat : String) : Bool :=
  1 < (s.splitOn pat).length

/-- Whether a cell holds a formula (`cell.value and isinstance(cell.value,
str) and cell.value.startswith("=")`). -/
def isFormulaCell (c : String) : Bool :=
  c ≠ "" && c.startsWith "="

/-- Whether `_check_formulas` flags a formula: its upper-cased text contains
`#REF` or `#DIV`. -/
def formulaHasError (c : String) : Bool :=
  strContains c.toUpper "#REF" || strContains c.toUpper "#DIV"

/-- The formula issues one worksheet contributes (sheets titled `COVER` are
skipped by the loop).  The `issue` text embeds the first 50 characters of
the formula; the surrounding quote characters of the f-string are elided. -/
def formulaIssuesOf (ws : Worksheet) : List Issue :=
  if ws.title = "COVER" then []
  else
    (ws.cells.filter fun c => isFormulaCell c && formulaHasError c).map fun c =>
      { itype := "formula_error", sheet := ws.title, cell := "cell"
        descr := "Potential error in formula: " ++ c.take 50
        severity := "high", autoFixable := false }

/-- `QAAgent._check_formulas`: appends one issue per flagged formula cell,
increments `checks_run`, and increments `checks_passed` iff `error_count`
— the number of appended issues — is zero.  (`formula_count` feeds only a
log message and is not modelled.) -/
def checkFormulas (wb : Workbook) (st : QAState) : QAState :=
  let issuesNew := (wb.worksheets.map formulaIssuesOf).flatten
  { checksRun := st.checksRun + 1
    checksPassed :=
      if issuesNew.length = 0 then st.checksPassed + 1 else st.checksPassed
    issues := st.issues ++ issuesNew }

/-- The chart issues one worksheet contributes: for each chart, a
`chart_error` when it has no data series (counted in `chart_issues`) and a
`chart_warning` when it has no title (appended but not counted). -/
def chartIssuesOf (ws : Worksheet) : List Issue :=
  (ws.charts.map fun ch =>
    (if ch.series.isEmpty then
      [{ itype := "chart_error", sheet := ws.title, cell := "N/A"
         descr := "Chart has no data series"
         severity := "medium", autoFixable := false }]
     else []) ++
    (if ch.title.isNone then
      [{ itype := "chart_warning", sheet := ws.title, cell := "N/A"
         descr := "Chart missing title"
         severity := "low", autoFixable := false }]
     else [])).flatten

/-- The value of the `chart_issues` counter: only missing-series findings
increment it. -/
def chartSeriesIssueCount (wb : Workbook) : ℕ :=
  (wb.worksheets.map fun ws => ws.charts.countP fun ch => ch.series.isEmpty).sum

/-- `QAAgent._check_charts`: `checks_passed` is gated on `chart_issues`,
which counts only the missing-series findings; missing-title findings are
appended to `issues` without affecting the gate. -/
def checkCharts (wb : Workbook) (st : QAState) : QAState :=
  { checksRun := st.checksRun + 1
    checksPassed :=
      if chartSeriesIssueCount wb = 0 then st.checksPassed + 1
      else st.checksPassed
    issues := st.issues ++ (wb.worksheets.map chartIssuesOf).flatten }

/-- The formatting issues one worksheet contributes: a gridlines issue when
`showGridLines` is set (counted in `formatting_issues`), and a freeze-panes
issue on model sheets without an anchor (appended but not counted). -/
def formattingIssuesOf (ws : Worksheet) : List Issue :=
  (if ws.showGridLines then
    [{ itype := "formatting", sheet := ws.title, cell := "N/A"
       descr := "Gridlines still visible — should be hidden"
       severity := "medium", autoFixable := true }]
   else []) ++
  (if !(["COVER", "DASHBOARD", "COMPS", "SCENARIOS"].contains ws.title) &&
      ws.freezePanes.isNone then
    [{ itype := "formatting", sheet := ws.title, cell := "N/A"
       descr := "Freeze panes not set on model sheet"
       severity := "low", autoFixable := true }]
   else [])

/-- The value of the `formatting_issues` counter: only gridline findings
increment it. -/
def gridlineIssueCount (wb : Workbook) : ℕ :=
  wb.worksheets.countP fun ws => ws.showGridLines

/-- `QAAgent._check_formatting`: `checks_passed` is gated on
`formatting_issues`, which counts only the gridline findings; freeze-pane
findings are appended without affecting the gate. -/
def checkFormatting (wb : Workbook) (st : QAState) : QAState :=
  { checksRun := st.checksRun + 1
    checksPassed :=
      if gridlineIssueCount wb = 0 then st.checksPassed + 1
      else st.checksPassed
    issues := st.issues ++ (wb.worksheets.map formattingIssuesOf).flatten }

/-- The required sheets of `_check_sheets`. -/
def requiredSheets : List String := ["COVER", "ASSUMPTIONS", "DASHBOARD"]

/-- The sheets `_check_sheets` reports missing. -/
def missingSheets (wb : Workbook) : List String :=
  requiredSheets.filter fun s => s ∉ wb.worksheets.map Worksheet.title

/-- `QAAgent._check_sheets`: one `missing_sheet` issue per required sheet
not present; `checks_passed` increments iff none is missing. -/
def checkSheets (wb : Workbook) (st : QAState) : QAState :=
  { checksRun := st.checksRun + 1
    checksPassed :=
      if (missingSheets wb).isEmpty then st.checksPassed + 1
      else st.checksPassed
    issues := st.issues ++ (missingSheets wb).map fun s =>
      { itype := "missing_sheet", sheet := s, cell := "N/A"
        descr := "Required sheet " ++ s ++ " is missing"
        severity := "high", autoFixable := false } }

/-- The final QA report of `QAAgent.audit`. -/
structure QAReport where
  passed : Bool
  checksRun : ℕ
  checksPassed : ℕ
  issues : List Issue
deriving DecidableEq, Repr

/-- `QAAgent.audit`: reset the counters, run the four checkers in order,
and report `passed = (len(self.issues) == 0)`. -/
def audit (wb : Workbook) : QAReport :=
  let st := checkSheets wb (checkFormatting wb (checkCharts wb
    (checkFormulas wb { checksRun := 0, checksPassed := 0, issues := [] })))
  { passed := st.issues.isEmpty
    checksRun := st.checksRun
    checksPassed := st.checksPassed
    issues := st.issues }

/-- The number of missing-title findings the chart checker appends. -/
def chartTitleIssueCount (wb : Workbook) : ℕ :=
  (wb.worksheets.map fun ws => ws.charts.countP fun ch => ch.title.isNone).sum

/-- The number of freeze-pane findings the formatting checker appends. -/
def freezePaneIssueCount (wb : Workbook) : ℕ :=
  wb.worksheets.countP fun ws =>
    !(["COVER", "DASHBOARD", "COMPS", "SCENARIOS"].contains ws.title) &&
      ws.freezePanes.isNone

lemma sum_map_add_nat {α : Type*} (f g : α → ℕ) (l : List α) :
    (l.map fun a => f a + g a).sum = (l.map f).sum + (l.map g).sum := by
  induction l with
  | nil => rfl
  | cons a t ih => simp only [List.map_cons, List.sum_cons, ih]; omega

lemma sum_map_ite_eq_countP {α : Type*} (p : α → Bool) (l : List α) :
    (l.map fun a => if p a then 1 else 0).sum = l.countP p := by
  induction l with
  | nil => rfl
  | cons a t ih =>
      simp only [List.map_cons, List.sum_cons, List.countP_cons, ih]
      by_cases h : p a <;> simp [h] <;> omega

lemma chartIssuesOf_length (ws : Worksheet) :
    (chartIssuesOf ws).length =
      ws.charts.countP (fun ch => ch.series.isEmpty) +
        ws.charts.countP (fun ch => ch.title.isNone) := by
  unfold chartIssuesOf
  generalize ws.charts = l
  induction l with
  | nil => rfl
  | cons ch t ih =>
      simp only [List.map_cons, List.flatten_cons, List.length_append,
        List.countP_cons, ih]
      by_cases h1 : ch.series.isEmpty <;> by_cases h2 : ch.title.isNone <;>
        simp [h1, h2] <;> omega

lemma formattingIssuesOf_length (ws : Worksheet) :
    (formattingIssuesOf ws).length =
      (if ws.showGridLines then 1 else 0) +
        (if (!(["COVER", "DASHBOARD", "COMPS", "SCENARIOS"].contains ws.title) &&
            ws.freezePanes.isNone) then 1 else 0) := by
  unfold formattingIssuesOf
  rcases Bool.eq_false_or_eq_true ws.showGridLines with h1 | h1 <;>
    rcases Bool.eq_false_or_eq_true
      (!(["COVER", "DASHBOARD", "COMPS", "SCENARIOS"].contains ws.title) &&
        ws.freezePanes.isNone) with h2 | h2 <;>
      rw [h1, h2] <;> simp

lemma checkCharts_issues_length (wb : Workbook) (st : QAState) :
    (checkCharts wb st).issues.length =
      st.issues.length + chartSeriesIssueCount wb + chartTitleIssueCount wb := by
  simp only [checkCharts, List.length_append, List.length_flatten, List.map_map]
  have h1 : (wb.worksheets.map (List.length ∘ chartIssuesOf)).sum =
      chartSeriesIssueCount wb + chartTitleIssueCount wb := by
    have h2 : (wb.worksheets.map (List.length ∘ chartIssuesOf)) =
        wb.worksheets.map fun ws =>
          ws.charts.countP (fun ch => ch.series.isEmpty) +
            ws.charts.countP (fun ch => ch.title.isNone) := by
      simp [Function.comp, chartIssuesOf_length]
    rw [h2, sum_map_add_nat]
    rfl
  omega

lemma checkFormatting_issues_length (wb : Workbook) (st : QAState) :
    (checkFormatting wb st).issues.length =
      st.issues.length + gridlineIssueCount wb + freezePaneIssueCount wb := by
  simp only [checkFormatting, List.length_append, List.length_flatten,
    List.map_map]
  have h2 : (wb.worksheets.map (List.length ∘ formattingIssuesOf)) =
      wb.worksheets.map fun ws =>
        (if ws.showGridLines then 1 else 0) +
          (if (!(["COVER", "DASHBOARD", "COMPS", "SCENARIOS"].contains ws.title) &&
              ws.freezePanes.isNone) then 1 else 0) := by
    simp [Function.comp, formattingIssuesOf_length]
  have h1 : (wb.worksheets.map (List.length ∘ formattingIssuesOf)).sum =
      gridlineIssueCount wb + freezePaneIssueCount wb := by
    rw [h2, sum_map_add_nat, sum_map_ite_eq_countP, sum_map_ite_eq_countP]
    rfl
  omega

lemma passed_gate_iff (st : QAState) (c : Prop) [Decidable c]
    (new : List Issue) (hc : c ↔ new = []) :
    ((if c then st.checksPassed + 1 else st.checksPassed) = st.checksPassed + 1 ↔
      st.issues ++ new = st.issues) := by
  by_cases h : c
  · simp [h, hc.mp h]
  · have hne : new ≠ [] := fun hnil => h (hc.mpr hnil)
    rw [if_neg h]
    constructor
    · intro habs; exact absurd habs (by omega)
    · intro habs
      have hl := congrArg List.length habs
      rw [List.length_append] at hl
      exact absurd (List.length_eq_zero.mp (by omega)) hne

/-- C9 (amended).  Each of the four checkers increments `checks_run` by
exactly one.  The formula and required-sheet checkers increment
`checks_passed` iff they appended zero issues, as the claim states; but the
chart checker increments `checks_passed` iff it found zero missing-series
issues — missing-title findings are appended without affecting the gate
— and the formatting checker iff it found zero visible-gridline issues —
freeze-pane findings are appended without affecting the gate.  The two
final equations count the appended issues of the two gate-bypassing
checkers. -/
theorem qa_checkers_amended (wb : Workbook) (st : QAState) :
    ((checkFormulas wb st).checksRun = st.checksRun + 1 ∧
      (checkCharts wb st).checksRun = st.checksRun + 1 ∧
      (checkFormatting wb st).checksRun = st.checksRun + 1 ∧
      (checkSheets wb st).checksRun = st.checksRun + 1) ∧
    ((checkFormulas wb st).checksPassed = st.checksPassed + 1 ↔
      (checkFormulas wb st).issues = st.issues) ∧
    ((checkSheets wb st).checksPassed = st.checksPassed + 1 ↔
      (checkSheets wb st).issues = st.issues) ∧
    ((checkCharts wb st).checksPassed = st.checksPassed + 1 ↔
      chartSeriesIssueCount wb = 0) ∧
    ((checkFormatting wb st).checksPassed = st.checksPassed + 1 ↔
      gridlineIssueCount wb = 0) ∧
    (checkCharts wb st).issues.length =
      st.issues.length + chartSeriesIssueCount wb + chartTitleIssueCount wb ∧
    (checkFormatting wb st).issues.length =
      st.issues.length + gridlineIssueCount wb + freezePaneIssueCount wb := by
  refine ⟨⟨rfl, rfl, rfl, rfl⟩, ?_, ?_, ?_, ?_,
    checkCharts_issues_length wb st, checkFormatting_issues_length wb st⟩
  · simp only [checkFormulas]
    exact passed_gate_iff st _ _ List.length_eq_zero
  · simp only [checkSheets]
    exact passed_gate_iff st _ _
      (by rw [List.isEmpty_iff, List.map_eq_nil_iff])
  · by_cases h : chartSeriesIssueCount wb = 0 <;> simp [checkCharts, h]
  · by_cases h : gridlineIssueCount wb = 0 <;> simp [checkFormatting, h]

/-- A workbook isolating the chart checker: one `DASHBOARD` sheet (exempt
from the freeze-pane rule), gridlines hidden, with a single chart that has a
data series but no title. -/
def untitledChartWb : Workbook :=
  ⟨[⟨"DASHBOARD", [], [⟨["Series1"], none⟩], false, none⟩]⟩

/-- C9, counterexample to the claim as stated: on `untitledChartWb` the
chart checker appends one Issue (the missing title) and still increments
`checks_passed`, because only the missing-series counter gates the
increment. -/
theorem qa_chart_title_cex :
    (checkCharts untitledChartWb
        { checksRun := 0, checksPassed := 0, issues := [] }).checksPassed = 1 ∧
      (checkCharts untitledChartWb
        { checksRun := 0, checksPassed := 0, issues := [] }).issues.length = 1 := by
  constructor <;> rfl

/-! ## Analyst agent (`analyst_agent.py`)

`_rule_based_recommendation` reads these fields of the `company_data` dict,
each through `data.get` with a default (`.get("total_debt", 0) or 0`, etc.),
so the record below carries the fields with the defaults already applied.
Python's float `**` is modelled by the real power, so the CAGR computations
live over `ℝ`; the one input class where Python's `**` does NOT produce a
real number — a negative ratio under a non-integral exponent, which yields
a `complex` and makes the later comparison or `round` raise an uncaught
`TypeError` — is modelled separately by `cagrRaisesTypeError` and the
`Except`-valued `recommendE` below. -/

structure CompanyData where
  companyName : String
  sector : String
  revenueHistory : List ℚ
  ebitdaHistory : List ℚ
  totalDebt : ℚ
  marketCap : ℚ
deriving DecidableEq, Repr

/-- The revenue CAGR of `_rule_based_recommendation` (analyst_agent.py,
lines 172-177): `(revenue[0] / revenue[-1]) ** (1/(len(revenue)-1)) - 1`
over the RAW series when it has at least two entries, else `0`; the
`except` arm (`0.08`) is reached exactly on a zero denominator.  No
clamping is applied.  This real-valued function models the source only on
inputs where the float power is real (the source and the model then agree,
including `0 ** e = 0` and the exponent-one case of a two-entry series);
on the inputs of `cagrRaisesTypeError` the source instead produces a
`complex` and raises downstream, which `recommendE` models. -/
noncomputable def analystRevCagr (revenue : List ℚ) : ℝ :=
  if 2 ≤ revenue.length then
    if revenue.getLastI = 0 then 8/100
    else ((revenue.headI / revenue.getLastI : ℚ) : ℝ) ^
      ((1 : ℝ) / ((revenue.length - 1 : ℕ) : ℝ)) - 1
  else 0

/-- The average EBITDA margin of `_rule_based_recommendation`: the mean of
`e/r` over zipped pairs with positive revenue, `0.20` when no pair
qualifies, `0` when either history is empty.  (The division cannot raise,
so the `except` arm setting `0.20` is unreachable.) -/
def analystAvgMargin (ebitda revenue : List ℚ) : ℚ :=
  if ebitda ≠ [] ∧ revenue ≠ [] then
    let margins := ((ebitda.zip revenue).filter fun p => 0 < p.2).map
      fun p => p.1 / p.2
    if margins = [] then 20/100 else margins.sum / margins.length
  else 0

/-- The debt/EBITDA of `_rule_based_recommendation`: `total_debt /
ebitda[0]` when the EBITDA history is non-empty with positive first entry,
else `0`. -/
def analystDebtEbitda (debt : ℚ) (ebitda : List ℚ) : ℚ :=
  if ebitda ≠ [] ∧ 0 < ebitda.headI then debt / ebitda.headI else 0

/-- The growth-sector keyword set of the DCF branch. -/
def growthSectorKeys : List String :=
  ["technology", "software", "pharma", "consumer"]

/-- `any(s in sector for s in [...])` over the lower-cased sector. -/
def isGrowthSector (sectorLower : String) : Bool :=
  growthSectorKeys.any fun k => strContains sectorLower k

/-- The closed set of model-type tags. -/
inductive ModelType where
  | DCF
  | LBO
  | ThreeStatement
  | FPA
deriving DecidableEq, Repr

open Classical in
/-- The `if/elif` chain of `_rule_based_recommendation` selecting the model
type (analyst_agent.py, lines 194-209). -/
noncomputable def ruleBasedModelType (data : CompanyData) : ModelType :=
  let revCagr := analystRevCagr data.revenueHistory
  let avgMargin := analystAvgMargin data.ebitdaHistory data.revenueHistory
  let debtEbitda := analystDebtEbitda data.totalDebt data.ebitdaHistory
  if 3 < debtEbitda then .LBO
  else if (20/100 : ℝ) < revCagr ∨ isGrowthSector data.sector.toLower then .DCF
  else if (25/100 : ℚ) < avgMargin ∧ (5000 : ℚ) < data.marketCap then .DCF
  else .ThreeStatement

/-- The `key_metrics` sub-mapping of a recommendation, with the roundings
the source applies. -/
structure KeyMetrics where
  revenueCagr : ℝ
  avgEbitdaMargin : ℝ
  debtToEbitda : ℝ

/-- The confidence tag of a recommendation. -/
inductive Confidence where
  | high
  | medium
deriving DecidableEq, Repr

/-- A recommendation as the cascade produces it.  The free-text fields
(`reasoning`, `valuation_view`, `one_line_thesis`) are prose and are not
modelled. -/
structure Recommendation where
  modelType : ModelType
  keyMetrics : KeyMetrics
  confidence : Confidence

/-- `AnalystAgent._rule_based_recommendation` assembled: the selected model
type, the rounded key metrics, confidence `medium`. -/
noncomputable def ruleBasedRecommendation (data : CompanyData) : Recommendation :=
  { modelType := ruleBasedModelType data
    keyMetrics :=
      { revenueCagr := pyRound (analystRevCagr data.revenueHistory) 3
        avgEbitdaMargin :=
          pyRound ((analystAvgMargin data.ebitdaHistory data.revenueHistory : ℚ) : ℝ) 3
        debtToEbitda :=
          pyRound ((analystDebtEbitda data.totalDebt data.ebitdaHistory : ℚ) : ℝ) 1 }
    confidence := .medium }

/-- What one run of `AnalystAgent.recommend` did: its result and which
links of the cascade were exercised. -/
structure RecommendOutcome where
  result : Recommendation
  geminiCalled : Bool
  groqCalled : Bool
  ruleBasedUsed : Bool

/-- `AnalystAgent.recommend` (analyst_agent.py, lines 31-55).  Each provider
adapter is a black box returning `some` parsed recommendation or `none`
(no API key, request failure, or unparseable response — the adapter's
`try/except` absorbs them all); `if not recommendation` falls through to
the next link, and the rule-based computation is the terminal link. -/
noncomputable def recommend (gemini groq : Option Recommendation)
    (data : CompanyData) : RecommendOutcome :=
  match gemini with
  | some r => { result := r, geminiCalled := true, groqCalled := false,
                ruleBasedUsed := false }
  | none =>
    match groq with
    | some r => { result := r, geminiCalled := true, groqCalled := true,
                  ruleBasedUsed := false }
    | none => { result := ruleBasedRecommendation data, geminiCalled := true,
                groqCalled := true, ruleBasedUsed := true }

/-- The inputs on which `_rule_based_recommendation` raises rather than
returning: with at least three entries the exponent `1/(len-1)` is
non-integral, and when the last entry is nonzero (so no `ZeroDivisionError`
sends the `try` to its `0.08` arm) and the ratio `revenue[0]/revenue[-1]`
is negative, Python's float `**` (analyst_agent.py:174) returns a `complex`
without raising; the comparison `rev_cagr > 0.20` (line 198) or
`round(rev_cagr, 3)` (line 215) then raises a `TypeError` that no handler
in the agent catches.  On every other input the arithmetic stays real and
the function returns. -/
def cagrRaisesTypeError (revenue : List ℚ) : Prop :=
  3 ≤ revenue.length ∧ revenue.getLastI ≠ 0 ∧
    revenue.headI / revenue.getLastI < 0

instance (revenue : List ℚ) : Decidable (cagrRaisesTypeError revenue) := by
  unfold cagrRaisesTypeError
  infer_instance

/-- The uncaught exception of the complex-CAGR path. -/
def pyTypeErrorMsg : String :=
  "TypeError: complex rev_cagr in comparison or round"

/-- `AnalystAgent._rule_based_recommendation` with its error behaviour:
either the recommendation, or the uncaught `TypeError` of the complex-CAGR
path. -/
noncomputable def ruleBasedRecommendationE (data : CompanyData) :
    Except String Recommendation :=
  if cagrRaisesTypeError data.revenueHistory then .error pyTypeErrorMsg
  else .ok (ruleBasedRecommendation data)

/-- `AnalystAgent.recommend` with error propagation: `recommend` itself has
no `try/except`, so an exception escaping the rule-based link propagates to
the caller. -/
noncomputable def recommendE (gemini groq : Option Recommendation)
    (data : CompanyData) : Except String RecommendOutcome :=
  match gemini with
  | some r => .ok { result := r, geminiCalled := true, groqCalled := false,
                    ruleBasedUsed := false }
  | none =>
    match groq with
    | some r => .ok { result := r, geminiCalled := true, groqCalled := true,
                      ruleBasedUsed := false }
    | none =>
        (ruleBasedRecommendationE data).map fun rec =>
          { result := rec, geminiCalled := true, groqCalled := true,
            ruleBasedUsed := true }

/-- The revenue CAGR of `PlanningAgent._calculate_metrics`
(planning_agent.py, lines 81-87): over the positive-filtered series, the
formula with exponent `1 / max(len-1, 1)`, clamped to `[-0.10, 0.40]`;
default `0.08` with fewer than two positive entries.  (The filtered last
entry is positive, so the `except` arm resetting `0.08` is unreachable.) -/
noncomputable def planningRevCagr (revenueRaw : List ℚ) : ℝ :=
  let revenue := revenueRaw.filter fun r => 0 < r
  if 2 ≤ revenue.length then
    max (min (((revenue.headI / revenue.getLastI : ℚ) : ℝ) ^
      ((1 : ℝ) / ((max (revenue.length - 1) 1 : ℕ) : ℝ)) - 1) (40/100))
      (-(10/100))
  else 8/100

/-- Modelled from the spec: the CAGR formula the specification states,
`(most_recent / oldest)^(1/(n-1)) - 1`, to compare the two implementations
against. -/
noncomputable def specRevCagrFormula (revenue : List ℚ) : ℝ :=
  ((revenue.headI / revenue.getLastI : ℚ) : ℝ) ^
    ((1 : ℝ) / ((revenue.length - 1 : ℕ) : ℝ)) - 1

/-- Modelled from the spec: the clamp to `[-10%, 40%]`. -/
noncomputable def specClamp (x : ℝ) : ℝ := max (min x (40/100)) (-(10/100))

lemma specClamp_bounds (x : ℝ) :
    (-(10/100) : ℝ) ≤ specClamp x ∧ specClamp x ≤ 40/100 := by
  unfold specClamp
  exact ⟨le_max_right _ _,
    max_le (le_trans (min_le_right _ _) (by norm_num)) (by norm_num)⟩

/-- C4 (amended).  The Planning metric is the spec formula over the
positive-filtered series, clamped to `[-0.10, 0.40]`, so it always lies in
that interval, and it defaults to `0.08` with fewer than two positive
entries; but the CAGR computed for model selection
(`_rule_based_recommendation`) defaults to `0` — not `0.08` — with fewer
than two entries, and is not clamped at all (see
`analyst_cagr_unclamped_cex`). -/
theorem planning_cagr_clamped (revenueRaw : List ℚ) :
    (-(10/100) : ℝ) ≤ planningRevCagr revenueRaw ∧
      planningRevCagr revenueRaw ≤ 40/100 ∧
      (2 ≤ (revenueRaw.filter fun r => 0 < r).length →
        planningRevCagr revenueRaw =
          specClamp (specRevCagrFormula (revenueRaw.filter fun r => 0 < r))) ∧
      ((revenueRaw.filter fun r => 0 < r).length < 2 →
        planningRevCagr revenueRaw = 8/100) ∧
      (∀ revenue : List ℚ, revenue.length < 2 → analystRevCagr revenue = 0) := by
  have heq : 2 ≤ (revenueRaw.filter fun r => 0 < r).length →
      planningRevCagr revenueRaw =
        specClamp (specRevCagrFormula (revenueRaw.filter fun r => 0 < r)) := by
    intro h
    have hmax : max ((revenueRaw.filter fun r => 0 < r).length - 1) 1 =
        (revenueRaw.filter fun r => 0 < r).length - 1 := by omega
    unfold planningRevCagr specClamp specRevCagrFormula
    rw [if_pos h, hmax]
  have hdef : (revenueRaw.filter fun r => 0 < r).length < 2 →
      planningRevCagr revenueRaw = 8/100 := by
    intro h
    unfold planningRevCagr
    rw [if_neg (by omega)]
  have hbounds : (-(10/100) : ℝ) ≤ planningRevCagr revenueRaw ∧
      planningRevCagr revenueRaw ≤ 40/100 := by
    by_cases h : 2 ≤ (revenueRaw.filter fun r => 0 < r).length
    · rw [heq h]; exact specClamp_bounds _
    · rw [hdef (by omega)]; norm_num
  refine ⟨hbounds.1, hbounds.2, heq, hdef, ?_⟩
  intro revenue h
  unfold analystRevCagr
  rw [if_neg (by omega)]

/-- C4, counterexample to the claim as stated: on the two-entry positive
series `[3, 1]` (revenue tripled in one year) the CAGR the model-selection
code computes is `(3/1)^(1/1) - 1 = 2`, far above the claimed clamp of
`0.40` (the clamped spec value is `0.40`); and on the one-entry series the
selection code defaults to `0`, not to the claimed `0.08`. -/
theorem analyst_cagr_unclamped_cex :
    analystRevCagr [3, 1] = 2 ∧
      ¬ analystRevCagr [3, 1] ≤ 40/100 ∧
      specClamp (specRevCagrFormula [3, 1]) = 40/100 ∧
      analystRevCagr [100] = 0 ∧
      analystRevCagr [100] ≠ 8/100 := by
  have h2 : analystRevCagr [3, 1] = 2 := by
    rw [analystRevCagr]
    rw [if_pos (by norm_num), if_neg (by norm_num [List.getLastI])]
    norm_num [List.getLastI, List.headI]
  have h1 : analystRevCagr [100] = 0 := by
    rw [analystRevCagr, if_neg (by norm_num)]
  have hspec : specClamp (specRevCagrFormula [3, 1]) = 40/100 := by
    have hf : specRevCagrFormula [3, 1] = 2 := by
      unfold specRevCagrFormula
      norm_num [List.getLastI, List.headI]
    rw [specClamp, hf]
    norm_num
  refine ⟨h2, by rw [h2]; norm_num, hspec, h1, by rw [h1]; norm_num⟩

/-- The company data of the claimed scenario: two-entry revenue history
giving CAGR `0.05`, EBITDA 100 against debt 350 giving debt/EBITDA `3.5`,
a non-growth sector and a market cap below the size threshold. -/
def lboData : CompanyData :=
  { companyName := "LeverCo", sector := "Utilities"
    revenueHistory := [105, 100], ebitdaHistory := [100, 90]
    totalDebt := 350, marketCap := 2000 }

/-- C2.  The rule-based model selection follows the fixed priority order of
the `if/elif` chain — leverage, then growth-or-sector, then
margin-and-size, else 3-Statement — and never returns FP&A; at the claimed
scenario (`lboData`: debt/EBITDA `3.5`, revenue CAGR `0.05`) it selects
LBO, the debt threshold being checked before the growth threshold. -/
theorem rule_based_priority :
    (∀ data : CompanyData,
      ruleBasedModelType data ≠ .FPA ∧
      (3 < analystDebtEbitda data.totalDebt data.ebitdaHistory →
        ruleBasedModelType data = .LBO) ∧
      (¬ 3 < analystDebtEbitda data.totalDebt data.ebitdaHistory →
        ((20/100 : ℝ) < analystRevCagr data.revenueHistory ∨
          isGrowthSector data.sector.toLower = true) →
        ruleBasedModelType data = .DCF) ∧
      (¬ 3 < analystDebtEbitda data.totalDebt data.ebitdaHistory →
        ¬ ((20/100 : ℝ) < analystRevCagr data.revenueHistory ∨
          isGrowthSector data.sector.toLower = true) →
        ((25/100 : ℚ) < analystAvgMargin data.ebitdaHistory data.revenueHistory ∧
          (5000 : ℚ) < data.marketCap) →
        ruleBasedModelType data = .DCF) ∧
      (¬ 3 < analystDebtEbitda data.totalDebt data.ebitdaHistory →
        ¬ ((20/100 : ℝ) < analystRevCagr data.revenueHistory ∨
          isGrowthSector data.sector.toLower = true) →
        ¬ ((25/100 : ℚ) < analystAvgMargin data.ebitdaHistory data.revenueHistory ∧
          (5000 : ℚ) < data.marketCap) →
        ruleBasedModelType data = .ThreeStatement)) ∧
    analystDebtEbitda lboData.totalDebt lboData.ebitdaHistory = 7/2 ∧
    analystRevCagr lboData.revenueHistory = 1/20 ∧
    ruleBasedModelType lboData = .LBO := by
  have hd : analystDebtEbitda lboData.totalDebt lboData.ebitdaHistory = 7/2 := by
    show analystDebtEbitda 350 [100, 90] = 7/2
    rw [analystDebtEbitda, if_pos ⟨by simp, by norm_num [List.headI]⟩]
    norm_num [List.headI]
  have hc : analystRevCagr lboData.revenueHistory = 1/20 := by
    show analystRevCagr [105, 100] = 1/20
    rw [analystRevCagr]
    rw [if_pos (by norm_num), if_neg (by norm_num [List.getLastI])]
    norm_num [List.getLastI, List.headI]
  refine ⟨fun data => ⟨?_, ?_, ?_, ?_, ?_⟩, hd, hc, ?_⟩
  · simp only [ruleBasedModelType]
    split_ifs <;> simp
  · intro h1
    simp only [ruleBasedModelType]
    rw [if_pos h1]
  · intro h1 h2
    simp only [ruleBasedModelType]
    rw [if_neg h1, if_pos h2]
  · intro h1 h2 h3
    simp only [ruleBasedModelType]
    rw [if_neg h1, if_neg h2, if_pos h3]
  · intro h1 h2 h3
    simp only [ruleBasedModelType]
    rw [if_neg h1, if_neg h2, if_neg h3]
  · simp only [ruleBasedModelType]
    rw [if_pos (by rw [hd]; norm_num)]

/-- C1 (amended).  With both providers failing (returning `None`), the
cascade falls through to the deterministic rule-based computation.  On
every company-data record outside the complex-CAGR class it returns that
computation's result — with the dict defaults applied, and a model type
that is always LBO, DCF or 3-Statement — but on a revenue history with at
least three entries, a nonzero last entry and a negative first/last ratio
the rule-based link raises an uncaught `TypeError`, which propagates out of
`recommend`: the claimed totality fails (see `recommend_raises_cex`). -/
theorem recommend_fallback_amended (data : CompanyData) :
    (¬ cagrRaisesTypeError data.revenueHistory →
      recommendE none none data =
        .ok { result := ruleBasedRecommendation data, geminiCalled := true,
              groqCalled := true, ruleBasedUsed := true } ∧
      ((ruleBasedRecommendation data).modelType = .LBO ∨
        (ruleBasedRecommendation data).modelType = .DCF ∨
        (ruleBasedRecommendation data).modelType = .ThreeStatement)) ∧
    (cagrRaisesTypeError data.revenueHistory →
      recommendE none none data = .error pyTypeErrorMsg) := by
  constructor
  · intro h
    constructor
    · simp only [recommendE, ruleBasedRecommendationE]
      rw [if_neg h]
      rfl
    · show ruleBasedModelType data = ModelType.LBO ∨
        ruleBasedModelType data = ModelType.DCF ∨
        ruleBasedModelType data = ModelType.ThreeStatement
      simp only [ruleBasedModelType]
      split_ifs <;> simp
  · intro h
    simp only [recommendE, ruleBasedRecommendationE]
    rw [if_pos h]
    rfl

/-- The company data of the raising path: revenue history `[-4, 2, 1]`
gives the ratio `-4` under the non-integral exponent `1/2`, so the source
computes a complex `rev_cagr` inside the `try` and raises an uncaught
`TypeError` at the comparison or the rounding. -/
def complexCagrData : CompanyData :=
  { companyName := "NegCo", sector := "Utilities"
    revenueHistory := [-4, 2, 1], ebitdaHistory := [100, 90]
    totalDebt := 0, marketCap := 2000 }

/-- C1, counterexample to the claim as stated: with both providers failing
on `complexCagrData`, `AnalystAgent.recommend` does not return the
rule-based result — it raises the uncaught `TypeError` of the complex-CAGR
path, so it is not total over all inputs. -/
theorem recommend_raises_cex :
    cagrRaisesTypeError complexCagrData.revenueHistory ∧
      recommendE none none complexCagrData = .error pyTypeErrorMsg := by
  have h : cagrRaisesTypeError complexCagrData.revenueHistory := by
    refine ⟨by norm_num [complexCagrData], ?_, ?_⟩ <;>
      norm_num [complexCagrData, List.getLastI, List.headI]
  refine ⟨h, ?_⟩
  simp only [recommendE, ruleBasedRecommendationE]
  rw [if_pos h]
  rfl

/-- C3.  When the first provider (Gemini) returns a parsed recommendation,
`recommend` returns it unchanged, and neither the second provider (Groq)
nor the rule-based computation is invoked. -/
theorem recommend_short_circuit (r : Recommendation)
    (groq : Option Recommendation) (data : CompanyData) :
    (recommend (some r) groq data).result = r ∧
      (recommend (some r) groq data).geminiCalled = true ∧
      (recommend (some r) groq data).groqCalled = false ∧
      (recommend (some r) groq data).ruleBasedUsed = false :=
  ⟨rfl, rfl, rfl, rfl⟩
